import Mathlib

/-!
Verification of the token-lifecycle subsystem of the `microservices` repository.

The development shallowly embeds the Go sources:

* `src/unnamed/part_000` (in-memory variant: `generateToken`, `generateAuthTokens`,
  `refreshAuthTokens`), `src/main.go` (handlers `login`, `refreshToken`, `protected`),
  `src/auth/session.go` (`Authorize`);
* `src/unnamed/part_005` (`internal/auth/tokens.go`: `GenerateToken`,
  `GenerateAuthTokens`, `ValidateRefreshToken`),
  `src/auth-server/internal/api/handlers.go` (`RefreshToken`, `Protected`),
  `src/auth-server/internal/database/postgres.go` (`SaveAuthTokens`,
  `GetAuthTokensByAccessToken`, `GetAuthTokensByRefreshToken`, `DeleteAuthTokens`).

Conventions of the embedding:

* Go `time.Time` instants and `time.Duration` values are both `Int` nanoseconds;
  Go's `time.Now().After(t)` is the strict comparison `now > t`.
* Bytes are `Nat` values `< 256`; a Go `[]byte` is a `List Nat`; Go strings are
  Lean `String`s, converted to bytes with `strBytes` where the Go code does
  `[]byte(s)` (the secrets at stake are base64url text, i.e. ASCII).
* `crypto/rand.Read` is modelled by an explicit entropy parameter
  `Option (List Nat)`: `none` is the failing randomness source, `some bs` a
  successful draw of the bytes `bs`.
* Fallible SQL statements are modelled with explicit success flags; a database
  is the list of its rows.
* To settle the constant-time-comparison claim, the two byte-comparison
  routines are instrumented with a cost component counting the byte
  comparisons they perform (the standard cost model for timing claims):
  `goBytesEq` is the short-circuit byte-by-byte equality underlying a plain
  Go `==` on equal-length strings, `subtleConstantTimeCompare` is
  `crypto/subtle.ConstantTimeCompare` (length gate, then a fold of
  `v |= x[i] XOR y[i]` over all bytes).
-/

/-! ## Base64 URL alphabet (Go `encoding/base64.URLEncoding`) -/

/-- The 64-character URL-safe base64 alphabet used by Go's `base64.URLEncoding`. -/
def b64Alphabet : List Char :=
  ['A', 'B', 'C', 'D', 'E', 'F', 'G', 'H', 'I', 'J', 'K', 'L', 'M',
   'N', 'O', 'P', 'Q', 'R', 'S', 'T', 'U', 'V', 'W', 'X', 'Y', 'Z',
   'a', 'b', 'c', 'd', 'e', 'f', 'g', 'h', 'i', 'j', 'k', 'l', 'm',
   'n', 'o', 'p', 'q', 'r', 's', 't', 'u', 'v', 'w', 'x', 'y', 'z',
   '0', '1', '2', '3', '4', '5', '6', '7', '8', '9', '-', '_']

/-- Character for a sextet value. -/
def b64Char (n : Nat) : Char := b64Alphabet.getD n 'A'

/-- Sextet value of a character, `none` for characters outside the alphabet. -/
def b64Index (c : Char) : Option Nat := b64Alphabet.indexOf? c

/-- Encoding of a byte list into base64url characters with `=` padding,
following Go's `base64.URLEncoding.EncodeToString`. -/
def b64EncodeBytes : List Nat → List Char
  | b0 :: b1 :: b2 :: rest =>
    b64Char (b0 / 4) :: b64Char (b0 % 4 * 16 + b1 / 16) ::
    b64Char (b1 % 16 * 4 + b2 / 64) :: b64Char (b2 % 64) :: b64EncodeBytes rest
  | [b0, b1] => [b64Char (b0 / 4), b64Char (b0 % 4 * 16 + b1 / 16), b64Char (b1 % 16 * 4), '=']
  | [b0] => [b64Char (b0 / 4), b64Char (b0 % 4 * 16), '=', '=']
  | [] => []

/-- Decoding of base64url characters (with `=` padding in the final quantum
only), following Go's `base64.URLEncoding.DecodeString`. -/
def b64DecodeChars : List Char → Option (List Nat)
  | c0 :: c1 :: c2 :: c3 :: rest =>
    match b64Index c0, b64Index c1 with
    | some i0, some i1 =>
      if c2 = '=' then
        if c3 = '=' ∧ rest = [] then some [i0 * 4 + i1 / 16] else none
      else
        match b64Index c2 with
        | some i2 =>
          if c3 = '=' then
            if rest = [] then some [i0 * 4 + i1 / 16, i1 % 16 * 16 + i2 / 4] else none
          else
            match b64Index c3 with
            | some i3 =>
              match b64DecodeChars rest with
              | some bs =>
                some ((i0 * 4 + i1 / 16) :: (i1 % 16 * 16 + i2 / 4) :: (i2 % 4 * 64 + i3) :: bs)
              | none => none
            | none => none
        | none => none
    | _, _ => none
  | [] => some []
  | _ => none

/-- Go `base64.URLEncoding.EncodeToString`, producing a `String`. -/
def base64URLEncode (bs : List Nat) : String := String.mk (b64EncodeBytes bs)

/-- Go `base64.URLEncoding.DecodeString`, consuming a `String`. -/
def base64URLDecode (s : String) : Option (List Nat) := b64DecodeChars s.data

lemma b64Index_b64Char : ∀ n : Nat, n < 64 → b64Index (b64Char n) = some n := by decide

lemma b64Char_ne_pad : ∀ n : Nat, n < 64 → b64Char n ≠ '=' := by decide

/-- Decoding inverts encoding on byte lists (all entries below 256). -/
lemma b64_decode_encode : ∀ bs : List Nat, (∀ b ∈ bs, b < 256) →
    b64DecodeChars (b64EncodeBytes bs) = some bs := by
  intro bs
  induction bs using b64EncodeBytes.induct with
  | case1 b0 b1 b2 rest ih =>
    intro hlt
    have h0 : b0 < 256 := hlt b0 (by simp)
    have h1 : b1 < 256 := hlt b1 (by simp)
    have h2 : b2 < 256 := hlt b2 (by simp)
    have e0 : b64Index (b64Char (b0 / 4)) = some (b0 / 4) := b64Index_b64Char _ (by omega)
    have e1 : b64Index (b64Char (b0 % 4 * 16 + b1 / 16)) = some (b0 % 4 * 16 + b1 / 16) :=
      b64Index_b64Char _ (by omega)
    have e2 : b64Index (b64Char (b1 % 16 * 4 + b2 / 64)) = some (b1 % 16 * 4 + b2 / 64) :=
      b64Index_b64Char _ (by omega)
    have e3 : b64Index (b64Char (b2 % 64)) = some (b2 % 64) := b64Index_b64Char _ (by omega)
    have n2 : b64Char (b1 % 16 * 4 + b2 / 64) ≠ '=' := b64Char_ne_pad _ (by omega)
    have n3 : b64Char (b2 % 64) ≠ '=' := b64Char_ne_pad _ (by omega)
    have hrest := ih (fun b hb => hlt b (by simp [hb]))
    simp only [b64EncodeBytes, b64DecodeChars, e0, e1, e2, e3, if_neg n2, if_neg n3, hrest,
      Option.some.injEq, List.cons.injEq, and_true]
    omega
  | case2 b0 b1 =>
    intro hlt
    have h0 : b0 < 256 := hlt b0 (by simp)
    have h1 : b1 < 256 := hlt b1 (by simp)
    have e0 : b64Index (b64Char (b0 / 4)) = some (b0 / 4) := b64Index_b64Char _ (by omega)
    have e1 : b64Index (b64Char (b0 % 4 * 16 + b1 / 16)) = some (b0 % 4 * 16 + b1 / 16) :=
      b64Index_b64Char _ (by omega)
    have e2 : b64Index (b64Char (b1 % 16 * 4)) = some (b1 % 16 * 4) :=
      b64Index_b64Char _ (by omega)
    have n2 : b64Char (b1 % 16 * 4) ≠ '=' := b64Char_ne_pad _ (by omega)
    simp only [b64EncodeBytes, b64DecodeChars, e0, e1, e2, if_neg n2, eq_self_iff_true,
      if_true, and_self, Option.some.injEq, List.cons.injEq, and_true]
    omega
  | case3 b0 =>
    intro hlt
    have h0 : b0 < 256 := hlt b0 (by simp)
    have e0 : b64Index (b64Char (b0 / 4)) = some (b0 / 4) := b64Index_b64Char _ (by omega)
    have e1 : b64Index (b64Char (b0 % 4 * 16)) = some (b0 % 4 * 16) :=
      b64Index_b64Char _ (by omega)
    simp only [b64EncodeBytes, b64DecodeChars, e0, e1, eq_self_iff_true, and_self,
      if_true, Option.some.injEq, List.cons.injEq, and_true]
    omega
  | case4 =>
    intro _
    simp [b64EncodeBytes, b64DecodeChars]

/-! ## Byte comparison primitives, instrumented with a comparison count -/

/-- Bytes of a Go string (`[]byte(s)`); the secrets compared are ASCII
base64url text, for which code points and bytes coincide. -/
def strBytes (s : String) : List Nat := s.data.map Char.toNat

/-- Short-circuit byte-by-byte equality: the byte-level model of a plain Go
string comparison. First component: the verdict; second component: number of
byte comparisons performed (stops at the first mismatch). -/
def goBytesEq : List Nat → List Nat → Bool × Nat
  | [], [] => (true, 0)
  | [], _ :: _ => (false, 0)
  | _ :: _, [] => (false, 0)
  | x :: xs, y :: ys =>
    if x = y then
      let r := goBytesEq xs ys
      (r.1, r.2 + 1)
    else (false, 1)

/-- The XOR/OR accumulation loop of `crypto/subtle.ConstantTimeCompare`:
first component is the accumulated `v |= x[i] ^ y[i]`, second component the
number of byte comparisons performed (always the full common length). -/
def xorAccum : List Nat → List Nat → Nat × Nat
  | x :: xs, y :: ys =>
    let r := xorAccum xs ys
    ((x ^^^ y) ||| r.1, r.2 + 1)
  | _, _ => (0, 0)

/-- `crypto/subtle.ConstantTimeCompare`: returns `(1, n)` on equal inputs of
length `n`, `(0, n)` on same-length mismatches, `(0, 0)` when lengths differ
(the length gate needs no byte comparison). -/
def subtleConstantTimeCompare (x y : List Nat) : Nat × Nat :=
  if x.length = y.length then
    let r := xorAccum x y
    (if r.1 = 0 then 1 else 0, r.2)
  else (0, 0)

lemma xorAccum_self : ∀ x : List Nat, xorAccum x x = (0, x.length) := by
  intro x
  induction x with
  | nil => rfl
  | cons a l ih => simp [xorAccum, ih]

lemma subtleConstantTimeCompare_self (x : List Nat) :
    subtleConstantTimeCompare x x = (1, x.length) := by
  simp [subtleConstantTimeCompare, xorAccum_self]

lemma xorAccum_len (x y : List Nat) (h : x.length = y.length) :
    (xorAccum x y).2 = x.length := by
  induction x generalizing y with
  | nil => cases y with
    | nil => rfl
    | cons b m => simp at h
  | cons a l ih =>
    cases y with
    | nil => simp at h
    | cons b m =>
      simp only [List.length_cons, Nat.add_right_cancel_iff] at h
      simp [xorAccum, ih m h]

lemma goBytesEq_cost_mismatch (pre : List Nat) (x y : Nat) (t1 t2 : List Nat) (h : x ≠ y) :
    (goBytesEq (pre ++ x :: t1) (pre ++ y :: t2)).2 = pre.length + 1 := by
  induction pre with
  | nil => simp [goBytesEq, h]
  | cons a l ih => simp [goBytesEq, ih]

/-! ## In-memory variant (`src/main.go`, `src/auth/session.go`, `src/unnamed/part_000`) -/

/-- `AuthTokens` of `src/auth/session.go`: the credential bundle. -/
structure AuthTokens where
  accessToken : String
  refreshToken : String
  csrfToken : String
  expiresAt : Int
deriving Repr, DecidableEq

/-- `Login` of `src/main.go`: stored per-user record. -/
structure Login where
  hashedPassword : String
  tokens : AuthTokens
deriving Repr, DecidableEq

/-- The process-wide `database` map of `src/main.go`, as an association list
from username to record; the list order stands for one iteration order of the
Go map. -/
abbrev MemDB := List (String × Login)

/-- Outcome of `Authorize` in `src/auth/session.go`: `nil`, `ErrAuth`, or the
distinct `errors.New("access token expired")`. -/
inductive AuthorizeResult where
  | success : AuthorizeResult
  | errAuth : AuthorizeResult
  | errExpired : AuthorizeResult
deriving Repr, DecidableEq

/-- The user-scanning loop of `Authorize` (`session.go` lines 38-52): walk the
map; on an access-token match, first test expiry (returning the expired error),
then the CSRF token (success breaks, mismatch keeps scanning). -/
def authorizeScan (now : Int) (accessToken csrfToken : String) : MemDB → AuthorizeResult
  | [] => .errAuth
  | (_, userData) :: rest =>
    if userData.tokens.accessToken = accessToken then
      if now > userData.tokens.expiresAt then .errExpired
      else if userData.tokens.csrfToken = csrfToken then .success
      else authorizeScan now accessToken csrfToken rest
    else authorizeScan now accessToken csrfToken rest

/-- `Authorize` of `src/auth/session.go`: empty-header gates, then the scan. -/
def Authorize (db : MemDB) (now : Int) (accessToken csrfToken : String) : AuthorizeResult :=
  if accessToken = "" then .errAuth
  else if csrfToken = "" then .errAuth
  else authorizeScan now accessToken csrfToken db

/-- `generateToken` of `src/unnamed/part_000`: on entropy failure it returns
the EMPTY STRING (the error from `rand.Read` is discarded); on success, the
base64url encoding of the drawn bytes. -/
def generateToken (entropy : Option (List Nat)) : String :=
  match entropy with
  | none => ""
  | some b => base64URLEncode b

/-- Access-token lifetime hard-coded in `generateAuthTokens`
(`src/unnamed/part_000` line 41): 15 minutes, in nanoseconds. -/
def mainAccessLifetime : Int := 15 * 60 * 1000000000

/-- `generateAuthTokens` of `src/unnamed/part_000`: three independent draws
and `ExpiresAt = time.Now().Add(15 * time.Minute)`. -/
def generateAuthTokens (now : Int) (e1 e2 e3 : Option (List Nat)) : AuthTokens :=
  { accessToken := generateToken e1
    refreshToken := generateToken e2
    csrfToken := generateToken e3
    expiresAt := now + mainAccessLifetime }

/-- `refreshAuthTokens` of `src/unnamed/part_000`: look up the user, compare
the presented refresh token with `subtle.ConstantTimeCompare`, then generate a
fresh bundle but overwrite its refresh token with the stored one. -/
def refreshAuthTokens (db : MemDB) (refreshToken username : String) (now : Int)
    (e1 e2 e3 : Option (List Nat)) : Except String AuthTokens :=
  match db.find? (fun p => p.1 = username) with
  | none => .error "user not found"
  | some (_, userData) =>
    if (subtleConstantTimeCompare (strBytes refreshToken)
        (strBytes userData.tokens.refreshToken)).1 = 1 then
      .ok { generateAuthTokens now e1 e2 e3 with refreshToken := userData.tokens.refreshToken }
    else .error "invalid refresh token"

/-- Outcomes of the `protected` handler of `src/main.go`. -/
inductive MemProtectedResult where
  | ok : MemProtectedResult
  | userNotFound : MemProtectedResult
  | missingTokens : MemProtectedResult
  | invalidTokens : MemProtectedResult
  | expired : MemProtectedResult
deriving Repr, DecidableEq

/-- `protected` of `src/main.go` (lines 263-316): resolve the username from
the request body first; then require both token headers; then compare both
presented tokens against THAT user's stored bundle; then check expiry. -/
def protectedHandler (db : MemDB) (username accessToken csrfToken : String)
    (now : Int) : MemProtectedResult :=
  match db.find? (fun p => p.1 = username) with
  | none => .userNotFound
  | some (_, userData) =>
    if accessToken = "" ∨ csrfToken = "" then .missingTokens
    else if userData.tokens.accessToken ≠ accessToken ∨
        userData.tokens.csrfToken ≠ csrfToken then .invalidTokens
    else if now > userData.tokens.expiresAt then .expired
    else .ok

/-! ## Auth-server variant (`internal/auth/tokens.go`, `internal/database/postgres.go`,
`internal/api/handlers.go`) -/

/-- `Tokens` of `internal/auth/tokens.go`. -/
structure Tokens where
  accessToken : String
  refreshToken : String
  csrfToken : String
  expiresAt : Int
deriving Repr, DecidableEq

/-- `TokenConfig` of `internal/auth/tokens.go` (durations in nanoseconds). -/
structure TokenConfig where
  accessTokenDuration : Int
  refreshTokenDuration : Int
deriving Repr, DecidableEq

/-- `GenerateToken` of `internal/auth/tokens.go`: on entropy failure the
`rand.Read` error is PROPAGATED (`Except.error`); on success, the base64url
encoding of the drawn bytes. -/
def GenerateToken (entropy : Option (List Nat)) : Except Unit String :=
  match entropy with
  | none => .error ()
  | some b => .ok (base64URLEncode b)

/-- `GenerateAuthTokens` of `internal/auth/tokens.go`: three sequential draws,
aborting on the first failure (all-or-nothing), and
`ExpiresAt = time.Now().Add(config.AccessTokenDuration)`. -/
def GenerateAuthTokens (config : TokenConfig) (now : Int)
    (e1 e2 e3 : Option (List Nat)) : Except Unit Tokens :=
  match GenerateToken e1 with
  | .error e => .error e
  | .ok accessToken =>
    match GenerateToken e2 with
    | .error e => .error e
    | .ok refreshToken =>
      match GenerateToken e3 with
      | .error e => .error e
      | .ok csrfToken =>
        .ok { accessToken := accessToken, refreshToken := refreshToken,
              csrfToken := csrfToken, expiresAt := now + config.accessTokenDuration }

/-- `ValidateRefreshToken` of `internal/auth/tokens.go`:
`subtle.ConstantTimeCompare([]byte(provided), []byte(stored)) == 1`. -/
def ValidateRefreshToken (providedToken storedToken : String) : Bool :=
  (subtleConstantTimeCompare (strBytes providedToken) (strBytes storedToken)).1 = 1

/-- `User` row of `internal/database/models.go` (the timestamp bookkeeping
columns, unused by the handler logic, are omitted). -/
structure User where
  id : Nat
  username : String
  hashedPassword : String
deriving Repr, DecidableEq

/-- `AuthToken` row of `internal/database/models.go` (the db-generated `id`
and `created_at` columns, unused by the handler logic, are omitted). -/
structure AuthToken where
  userID : Nat
  accessToken : String
  refreshToken : String
  csrfToken : String
  expiresAt : Int
deriving Repr, DecidableEq

/-- The relational store: the `users` and `auth_tokens` tables as row lists. -/
structure Database where
  users : List User
  authTokens : List AuthToken
deriving Repr, DecidableEq

/-- `GetUserByUsername` of `postgres.go`: `WHERE username = $1`. -/
def GetUserByUsername (db : Database) (username : String) : Option User :=
  db.users.find? (fun u => u.username = username)

/-- `GetAuthTokensByAccessToken` of `postgres.go` (complete revision): the
`auth_tokens JOIN users` query keyed on `access_token`; no joined row means
`(nil, nil, nil)`. -/
def GetAuthTokensByAccessToken (db : Database) (accessToken : String) :
    Option (AuthToken × User) :=
  match db.authTokens.find? (fun t => t.accessToken = accessToken) with
  | none => none
  | some t =>
    match db.users.find? (fun u => u.id = t.userID) with
    | none => none
    | some u => some (t, u)

/-- `GetAuthTokensByRefreshToken` of `postgres.go` (complete revision; the
earlier revision of the same file stubs this query out and always returns
`(nil, nil, nil)`): the same join keyed on `refresh_token`. -/
def GetAuthTokensByRefreshToken (db : Database) (refreshToken : String) :
    Option (AuthToken × User) :=
  match db.authTokens.find? (fun t => t.refreshToken = refreshToken) with
  | none => none
  | some t =>
    match db.users.find? (fun u => u.id = t.userID) with
    | none => none
    | some u => some (t, u)

/-- The `DELETE FROM auth_tokens WHERE user_id = $1` statement. -/
def deleteTokensFor (rows : List AuthToken) (userID : Nat) : List AuthToken :=
  rows.filter (fun t => t.userID ≠ userID)

/-- `DeleteAuthTokens` of `postgres.go`. -/
def DeleteAuthTokens (db : Database) (userID : Nat) : Database :=
  { db with authTokens := deleteTokensFor db.authTokens userID }

/-- `SaveAuthTokens` of `postgres.go`: two separate SQL statements with NO
transaction around them — first `DELETE` all rows of the user, then `INSERT`
the new row. Each statement may fail (`deleteOk`/`insertOk` flags); the
returned flag is `true` iff the whole save succeeded, and the returned
database is the state after the statements that did execute. -/
def SaveAuthTokens (db : Database) (userID : Nat) (row : AuthToken)
    (deleteOk insertOk : Bool) : Database × Bool :=
  if deleteOk then
    let afterDelete : Database := { db with authTokens := deleteTokensFor db.authTokens userID }
    if insertOk then
      ({ afterDelete with authTokens := afterDelete.authTokens ++ [row] }, true)
    else (afterDelete, false)
  else (db, false)

/-- Outcomes of the `Protected` handler of `internal/api/handlers.go`. -/
inductive ProtectedResult where
  | ok : String → ProtectedResult
  | missingAccess : ProtectedResult
  | missingCSRF : ProtectedResult
  | invalidAccess : ProtectedResult
  | invalidCSRF : ProtectedResult
  | expired : ProtectedResult
deriving Repr, DecidableEq

/-- `Protected` of `internal/api/handlers.go` (lines 306-359): header gates,
lookup by access token, then the CSRF comparison (a plain Go `!=`), and only
after it the expiry check `time.Now().After(ExpiresAt)`. -/
def Protected (db : Database) (now : Int) (accessToken csrfToken : String) : ProtectedResult :=
  if accessToken = "" then .missingAccess
  else if csrfToken = "" then .missingCSRF
  else
    match GetAuthTokensByAccessToken db accessToken with
    | none => .invalidAccess
    | some (token, user) =>
      if token.csrfToken ≠ csrfToken then .invalidCSRF
      else if now > token.expiresAt then .expired
      else .ok user.username

/-- HTTP status code and body message written by `Protected` for each
outcome, from the `sendJSONError` calls in `handlers.go`. -/
def protectedResponse : ProtectedResult → Nat × String
  | .ok username => (200, "Protected resource accessed by user: " ++ username)
  | .missingAccess => (401, "Missing access token")
  | .missingCSRF => (401, "Missing CSRF token")
  | .invalidAccess => (401, "Invalid access token")
  | .invalidCSRF => (401, "Invalid CSRF token")
  | .expired => (401, "Access token expired")

/-- Outcomes of the `RefreshToken` handler of `internal/api/handlers.go`. -/
inductive RefreshResult where
  | ok : Tokens → RefreshResult
  | userNotFound : RefreshResult
  | invalidRefresh : RefreshResult
  | internalError : RefreshResult
deriving Repr, DecidableEq

/-- `RefreshToken` of `internal/api/handlers.go` (lines 165-241): resolve the
claimed user, resolve the stored row by refresh token, require the row to
belong to the claimed user and pass `ValidateRefreshToken`, generate a fresh
bundle, overwrite its refresh token with the stored one, and persist it with
`SaveAuthTokens`. Returns the handler outcome and the store state after the
request. -/
def RefreshTokenHandler (db : Database) (username refreshToken : String) (now : Int)
    (config : TokenConfig) (e1 e2 e3 : Option (List Nat)) (deleteOk insertOk : Bool) :
    RefreshResult × Database :=
  match GetUserByUsername db username with
  | none => (.userNotFound, db)
  | some user =>
    match GetAuthTokensByRefreshToken db refreshToken with
    | none => (.invalidRefresh, db)
    | some (token, _) =>
      if token.userID ≠ user.id then (.invalidRefresh, db)
      else if ¬ ValidateRefreshToken refreshToken token.refreshToken then (.invalidRefresh, db)
      else
        match GenerateAuthTokens config now e1 e2 e3 with
        | .error _ => (.internalError, db)
        | .ok fresh =>
          let newTokens : Tokens := { fresh with refreshToken := token.refreshToken }
          let row : AuthToken :=
            { userID := user.id, accessToken := newTokens.accessToken,
              refreshToken := newTokens.refreshToken, csrfToken := newTokens.csrfToken,
              expiresAt := newTokens.expiresAt }
          match SaveAuthTokens db user.id row deleteOk insertOk with
          | (db2, true) => (.ok newTokens, db2)
          | (db2, false) => (.internalError, db2)

/-- Rows currently stored for one owner. -/
def tokensFor (db : Database) (userID : Nat) : List AuthToken :=
  db.authTokens.filter (fun t => t.userID = userID)

/-! ## Store helper lemmas -/

lemma deleteTokensFor_filter_eq (l : List AuthToken) (uid : Nat) :
    (deleteTokensFor l uid).filter (fun t => t.userID = uid) = [] := by
  induction l with
  | nil => rfl
  | cons a l ih =>
    unfold deleteTokensFor at ih ⊢
    by_cases h : a.userID = uid
    · simp [List.filter_cons, h, ih]
    · simp [List.filter_cons, h, ih]

lemma deleteTokensFor_filter_other (l : List AuthToken) (uid uid' : Nat) (h : uid' ≠ uid) :
    (deleteTokensFor l uid).filter (fun t => t.userID = uid') =
      l.filter (fun t => t.userID = uid') := by
  induction l with
  | nil => rfl
  | cons a l ih =>
    unfold deleteTokensFor at ih ⊢
    by_cases ha : a.userID = uid
    · have hb : ¬ a.userID = uid' := by omega
      rw [List.filter_cons_of_neg (by simpa using ha),
        List.filter_cons_of_neg (by simpa using hb)]
      exact ih
    · rw [List.filter_cons_of_pos (by simpa using ha)]
      by_cases hb : a.userID = uid'
      · rw [List.filter_cons_of_pos (by simpa using hb),
          List.filter_cons_of_pos (by simpa using hb), ih]
      · rw [List.filter_cons_of_neg (by simpa using hb),
          List.filter_cons_of_neg (by simpa using hb), ih]

lemma getByAccess_none (db : Database) (a : String)
    (h : ∀ t ∈ db.authTokens, t.accessToken ≠ a) :
    GetAuthTokensByAccessToken db a = none := by
  have hf : db.authTokens.find? (fun t => t.accessToken = a) = none := by
    rw [List.find?_eq_none]
    intro t ht
    simpa using h t ht
  simp [GetAuthTokensByAccessToken, hf]

lemma getByRefresh_none (db : Database) (r : String)
    (h : ∀ t ∈ db.authTokens, t.refreshToken ≠ r) :
    GetAuthTokensByRefreshToken db r = none := by
  have hf : db.authTokens.find? (fun t => t.refreshToken = r) = none := by
    rw [List.find?_eq_none]
    intro t ht
    simpa using h t ht
  simp [GetAuthTokensByRefreshToken, hf]

lemma validateRefreshToken_self (s : String) : ValidateRefreshToken s s = true := by
  simp [ValidateRefreshToken, subtleConstantTimeCompare_self]

/-- Computation of a successful `RefreshToken` request: the claimed user
resolves, the presented refresh token resolves to a row of that user, entropy
is available and both SQL statements succeed. -/
lemma refreshHandler_success (db : Database) (username : String) (user : User)
    (token : AuthToken) (tu : User) (now : Int) (config : TokenConfig)
    (e1b e2b e3b : List Nat)
    (hu : GetUserByUsername db username = some user)
    (ht : GetAuthTokensByRefreshToken db token.refreshToken = some (token, tu))
    (hid : token.userID = user.id) :
    RefreshTokenHandler db username token.refreshToken now config
        (some e1b) (some e2b) (some e3b) true true =
      (.ok { accessToken := base64URLEncode e1b, refreshToken := token.refreshToken,
             csrfToken := base64URLEncode e3b, expiresAt := now + config.accessTokenDuration },
       { db with authTokens :=
           deleteTokensFor db.authTokens user.id ++
             [{ userID := user.id, accessToken := base64URLEncode e1b,
                refreshToken := token.refreshToken, csrfToken := base64URLEncode e3b,
                expiresAt := now + config.accessTokenDuration }] }) := by
  simp [RefreshTokenHandler, hu, ht, hid, validateRefreshToken_self,
    GenerateAuthTokens, GenerateToken, SaveAuthTokens]

/-! ## Authorize scan helper lemmas -/

lemma authorizeScan_expired (now : Int) (a c : String) :
    ∀ db : MemDB, ∀ nm : String, ∀ u : Login,
      db.find? (fun p => p.2.tokens.accessToken = a) = some (nm, u) →
      now > u.tokens.expiresAt → authorizeScan now a c db = .errExpired := by
  intro db
  induction db with
  | nil =>
    intro nm u h
    simp at h
  | cons p rest ih =>
    intro nm u hf hexp
    by_cases h : p.2.tokens.accessToken = a
    · rw [List.find?_cons_of_pos _ (by simpa using h)] at hf
      cases hf
      have h' : u.tokens.accessToken = a := h
      simp only [authorizeScan, if_pos h', if_pos hexp]
    · rw [List.find?_cons_of_neg _ (by simpa using h)] at hf
      simp only [authorizeScan, if_neg h]
      exact ih nm u hf hexp

lemma authorizeScan_noMatch (now : Int) (a c : String) :
    ∀ db : MemDB, (∀ p ∈ db, p.2.tokens.accessToken ≠ a) →
      authorizeScan now a c db = .errAuth := by
  intro db
  induction db with
  | nil => intro _; rfl
  | cons p rest ih =>
    intro h
    have hp := h p (by simp)
    simp only [authorizeScan, if_neg hp]
    exact ih (fun q hq => h q (by simp [hq]))

lemma authorizeScan_csrfMismatch (now : Int) (a c : String) :
    ∀ db : MemDB,
      (∀ p ∈ db, p.2.tokens.accessToken = a →
        ¬ now > p.2.tokens.expiresAt ∧ p.2.tokens.csrfToken ≠ c) →
      authorizeScan now a c db = .errAuth := by
  intro db
  induction db with
  | nil => intro _; rfl
  | cons p rest ih =>
    intro h
    have hrest := ih (fun q hq => h q (by simp [hq]))
    by_cases hp : p.2.tokens.accessToken = a
    · obtain ⟨hexp, hcsrf⟩ := h p (by simp) hp
      simp only [authorizeScan, if_pos hp, if_neg hexp, if_neg hcsrf]
      exact hrest
    · simp only [authorizeScan, if_neg hp]
      exact hrest

/-- Upserting a row for an owner leaves exactly that row for the owner. -/
lemma tokensFor_after_upsert (db : Database) (uid : Nat) (row : AuthToken)
    (h : row.userID = uid) :
    tokensFor { db with authTokens := deleteTokensFor db.authTokens uid ++ [row] } uid
      = [row] := by
  simp [tokensFor, List.filter_append, deleteTokensFor_filter_eq, List.filter_cons, h]

/-! ## Concrete store fixtures used by counterexamples and witnesses -/

/-- A registered user of the relational store. -/
def sampleUser : User := { id := 1, username := "alice1234", hashedPassword := "h" }

/-- The bundle stored for `sampleUser` before the operation under scrutiny. -/
def oldRow : AuthToken :=
  { userID := 1, accessToken := "oldAccess", refreshToken := "oldRefresh",
    csrfToken := "oldCsrf", expiresAt := 100 }

/-- A freshly built bundle row for `sampleUser` (same refresh secret, new
access and anti-forgery secrets, fresh expiry). -/
def newRow : AuthToken :=
  { userID := 1, accessToken := "newAccess", refreshToken := "oldRefresh",
    csrfToken := "newCsrf", expiresAt := 200 }

/-- A store holding exactly `sampleUser` and their bundle `oldRow`. -/
def sampleDb : Database := { users := [sampleUser], authTokens := [oldRow] }

/-! ## Claims -/

/-- C4: on entropy failure the in-memory `generateToken` silently returns the
empty string, while the auth-server `GenerateToken` propagates the error.
This evaluates both implementations at the failing input (the randomness
source returning an error); the claim — a hard `EntropyUnavailable` error,
never an empty string — holds for `GenerateToken` but is violated by
`generateToken`. -/
theorem c4_entropy_failure_behavior :
    generateToken none = "" ∧ GenerateToken none = .error () :=
  ⟨rfl, rfl⟩

/-- C9: a successful `GenerateToken` over `n` drawn bytes returns the
base64url encoding of those bytes, and decoding that string yields back
exactly the `n` drawn bytes. -/
theorem c9_generate_roundtrip (n : Nat) (bs : List Nat) (hlen : bs.length = n)
    (hbytes : ∀ b ∈ bs, b < 256) :
    GenerateToken (some bs) = .ok (base64URLEncode bs) ∧
    base64URLDecode (base64URLEncode bs) = some bs ∧
    (base64URLDecode (base64URLEncode bs)).map List.length = some n := by
  have h : base64URLDecode (base64URLEncode bs) = some bs := b64_decode_encode bs hbytes
  refine ⟨rfl, h, ?_⟩
  rw [h]
  simp [hlen]

/-- Witness for C9 at a concrete three-byte draw. -/
theorem c9_generate_roundtrip_witness :
    GenerateToken (some [0, 255, 7]) = .ok (base64URLEncode [0, 255, 7]) ∧
    base64URLDecode (base64URLEncode [0, 255, 7]) = some [0, 255, 7] ∧
    (base64URLDecode (base64URLEncode [0, 255, 7])).map List.length = some 3 :=
  c9_generate_roundtrip 3 [0, 255, 7] rfl (by decide)

/-- C6 counterexample: the claim says a failed upsert leaves the owner's
previously stored bundle retrievable unchanged. In `sampleDb` the bundle
`oldRow` is retrievable; after a `SaveAuthTokens` whose `DELETE` succeeded
and whose `INSERT` failed, the store differs from the original and the old
bundle no longer resolves. -/
theorem c6_counterexample :
    GetAuthTokensByAccessToken sampleDb "oldAccess" = some (oldRow, sampleUser) ∧
    (SaveAuthTokens sampleDb 1 newRow true false).1 ≠ sampleDb ∧
    GetAuthTokensByAccessToken (SaveAuthTokens sampleDb 1 newRow true false).1 "oldAccess"
      = none := by
  decide

/-- C6 (amended): `SaveAuthTokens` runs `DELETE` then `INSERT` as two separate
statements with no transaction. If the delete fails the state is unchanged; if
the insert fails the owner's rows are already deleted and the owner is left
with NO bundle; only on full success is the old bundle replaced by the new
row. In particular the intermediate deleted-but-not-inserted state exists and
a failed upsert does not leave the previous bundle retrievable. -/
theorem c6_save_not_atomic (db : Database) (uid : Nat) (row : AuthToken) :
    (∀ b : Bool, SaveAuthTokens db uid row false b = (db, false)) ∧
    SaveAuthTokens db uid row true false =
      ({ db with authTokens := deleteTokensFor db.authTokens uid }, false) ∧
    tokensFor (SaveAuthTokens db uid row true false).1 uid = [] ∧
    SaveAuthTokens db uid row true true =
      ({ db with authTokens := deleteTokensFor db.authTokens uid ++ [row] }, true) := by
  refine ⟨fun b => rfl, rfl, ?_, rfl⟩
  simp [SaveAuthTokens, tokensFor, deleteTokensFor_filter_eq]

/-- C8 counterexample: the comparison-count (execution-time) model of the
plain equality used for the anti-forgery check in `Protected`/`Authorize`
performs a different number of byte comparisons for two same-length
mismatching pairs whose first mismatched byte sits at different positions —
so that comparison is not constant-time. -/
theorem c8_counterexample :
    (goBytesEq [7, 8, 9] [0, 8, 9]).2 ≠ (goBytesEq [7, 8, 9] [7, 8, 0]).2 := by
  decide

/-- C8 (amended): the anti-forgery secret in `authorize`/`Protected` is
compared with Go's built-in string equality, whose byte-level model
`goBytesEq` stops at the first mismatched byte — its comparison count is
`position + 1`, dependent on the mismatch position. The constant-time
comparison `subtle.ConstantTimeCompare` — whose comparison count equals the
full length for every same-length pair, mismatching or not — is used only for
the refresh secret (`ValidateRefreshToken`) in the refresh path. -/
theorem c8_constant_time_only_refresh_path :
    (∀ (pre t1 t2 : List Nat) (x y : Nat), x ≠ y →
      (goBytesEq (pre ++ x :: t1) (pre ++ y :: t2)).2 = pre.length + 1) ∧
    (∀ p s : String, (strBytes p).length = (strBytes s).length →
      (subtleConstantTimeCompare (strBytes p) (strBytes s)).2 = (strBytes p).length) ∧
    (∀ s : String, ValidateRefreshToken s s = true) := by
  refine ⟨fun pre t1 t2 x y h => goBytesEq_cost_mismatch pre x y t1 t2 h,
    ?_, validateRefreshToken_self⟩
  intro p s h
  have hx := xorAccum_len (strBytes p) (strBytes s) h
  simp [subtleConstantTimeCompare, h, hx]

/-- Witness for C8 (amended) at concrete inputs. -/
theorem c8_constant_time_only_refresh_path_witness :
    (goBytesEq ([5] ++ 1 :: [9]) ([5] ++ 2 :: [9])).2 = [5].length + 1 ∧
    (subtleConstantTimeCompare (strBytes "abc") (strBytes "abd")).2 =
      (strBytes "abc").length ∧
    ValidateRefreshToken "tok" "tok" = true :=
  ⟨c8_constant_time_only_refresh_path.1 [5] [9] [9] 1 2 (by decide),
   c8_constant_time_only_refresh_path.2.1 "abc" "abd" (by decide),
   c8_constant_time_only_refresh_path.2.2 "tok"⟩

/-- C10: the in-memory `protected` handler resolves the username from the
request body; an unregistered username is rejected (`User not found`) whatever
tokens are presented, and the presented tokens are compared only against the
claimed user's stored bundle, so a pair that does not equal that user's stored
pair is rejected even if it matches some other user's bundle. -/
theorem c10_protected_scoped_to_claimed_user :
    (∀ (db : MemDB) (username accessToken csrfToken : String) (now : Int),
      db.find? (fun p => p.1 = username) = none →
      protectedHandler db username accessToken csrfToken now = .userNotFound) ∧
    (∀ (db : MemDB) (username nm : String) (uB : Login)
        (accessToken csrfToken : String) (now : Int),
      db.find? (fun p => p.1 = username) = some (nm, uB) →
      accessToken ≠ "" → csrfToken ≠ "" →
      (uB.tokens.accessToken ≠ accessToken ∨ uB.tokens.csrfToken ≠ csrfToken) →
      protectedHandler db username accessToken csrfToken now = .invalidTokens) := by
  constructor
  · intro db username a c now h
    simp [protectedHandler, h]
  · intro db username nm uB a c now h ha hc hmis
    simp only [protectedHandler, h]
    rw [if_neg (not_or.mpr ⟨ha, hc⟩), if_pos hmis]

/-- Stored record of user `alice` in the in-memory fixture. -/
def aliceLogin : Login :=
  { hashedPassword := "x",
    tokens := { accessToken := "accA", refreshToken := "refA",
                csrfToken := "csrfA", expiresAt := 100 } }

/-- Stored record of user `bob` in the in-memory fixture. -/
def bobLogin : Login :=
  { hashedPassword := "y",
    tokens := { accessToken := "accB", refreshToken := "refB",
                csrfToken := "csrfB", expiresAt := 100 } }

/-- In-memory `database` fixture holding `alice` and `bob`. -/
def memSampleDb : MemDB := [("alice", aliceLogin), ("bob", bobLogin)]

/-- Witness for C10: `bob`'s bundle differs from the pair presented (which is
`alice`'s valid pair), so the request claiming `bob` is rejected; a request
claiming the unregistered `carol` is rejected as user-not-found. -/
theorem c10_protected_scoped_to_claimed_user_witness :
    protectedHandler memSampleDb "carol" "accA" "csrfA" 0 = .userNotFound ∧
    protectedHandler memSampleDb "bob" "accA" "csrfA" 0 = .invalidTokens :=
  ⟨c10_protected_scoped_to_claimed_user.1 memSampleDb "carol" "accA" "csrfA" 0 (by decide),
   c10_protected_scoped_to_claimed_user.2 memSampleDb "bob" "bob" bobLogin
     "accA" "csrfA" 0 (by decide) (by decide) (by decide) (by decide)⟩

/-- C1 counterexample: the claim says the expiry gate fires at the instant of
expiry (`now >= expiresAt`) and before the anti-forgery comparison. Both
parts fail on the code. First conjunct: in the in-memory `Authorize`, at
`now = expiresAt = 100` (so `now >= expiresAt`) with a correct anti-forgery
secret the request SUCCEEDS — Go's `time.Now().After` honors the bundle at
the exact expiry instant. Second conjunct: in the auth-server `Protected`,
with an expired bundle (`now = 200 > 100`) and a wrong anti-forgery secret
the response is the CSRF failure, not `CredentialExpired` — the anti-forgery
comparison runs first. -/
theorem c1_counterexample :
    Authorize memSampleDb 100 "accA" "csrfA" = .success ∧
    Protected sampleDb 200 "oldAccess" "wrongCsrf" = .invalidCSRF := by
  decide

/-- C1 (amended): expiry fires only strictly after `expiresAt` (the bundle is
still honored at the exact instant of expiry). In the in-memory `Authorize`
the expiry gate precedes the anti-forgery comparison: whenever the presented
access secret resolves a stored bundle and `now > expiresAt`, the result is
the expired error for EVERY presented anti-forgery value. In the auth-server
`Protected` the anti-forgery comparison precedes the expiry gate: the
expired response is produced when the anti-forgery secret matches and
`now > expiresAt`, and at `now ≤ expiresAt` the same request succeeds. -/
theorem c1_expiry_gate :
    (∀ (db : MemDB) (now : Int) (a c nm : String) (u : Login),
      a ≠ "" → c ≠ "" →
      db.find? (fun p => p.2.tokens.accessToken = a) = some (nm, u) →
      now > u.tokens.expiresAt →
      Authorize db now a c = .errExpired) ∧
    (∀ (db : Database) (now : Int) (a c : String) (t : AuthToken) (u : User),
      a ≠ "" → c ≠ "" →
      GetAuthTokensByAccessToken db a = some (t, u) →
      t.csrfToken = c → now > t.expiresAt →
      Protected db now a c = .expired) ∧
    (∀ (db : Database) (now : Int) (a c : String) (t : AuthToken) (u : User),
      a ≠ "" → c ≠ "" →
      GetAuthTokensByAccessToken db a = some (t, u) →
      t.csrfToken = c → now ≤ t.expiresAt →
      Protected db now a c = .ok u.username) := by
  refine ⟨?_, ?_, ?_⟩
  · intro db now a c nm u ha hc hf hexp
    simp only [Authorize, if_neg ha, if_neg hc]
    exact authorizeScan_expired now a c db nm u hf hexp
  · intro db now a c t u ha hc hf hcsrf hexp
    simp only [Protected, if_neg ha, if_neg hc, hf]
    rw [if_neg (by simp [hcsrf]), if_pos hexp]
  · intro db now a c t u ha hc hf hcsrf hexp
    simp only [Protected, if_neg ha, if_neg hc, hf]
    rw [if_neg (by simp [hcsrf]), if_neg (by omega)]

/-- Witness for C1 (amended): all three clauses at concrete stores. -/
theorem c1_expiry_gate_witness :
    Authorize memSampleDb 101 "accA" "anythingAtAll" = .errExpired ∧
    Protected sampleDb 101 "oldAccess" "oldCsrf" = .expired ∧
    Protected sampleDb 100 "oldAccess" "oldCsrf" = .ok "alice1234" :=
  ⟨c1_expiry_gate.1 memSampleDb 101 "accA" "anythingAtAll" "alice" aliceLogin
     (by decide) (by decide) (by decide) (by decide),
   c1_expiry_gate.2.1 sampleDb 101 "oldAccess" "oldCsrf" oldRow sampleUser
     (by decide) (by decide) (by decide) (by decide) (by decide),
   c1_expiry_gate.2.2 sampleDb 100 "oldAccess" "oldCsrf" oldRow sampleUser
     (by decide) (by decide) (by decide) (by decide) (by decide)⟩

/-- C7 counterexample: in the auth-server `Protected` handler the two
credential-comparison failures are observably DIFFERENT: an access secret
that resolves no bundle answers 401 "Invalid access token", while a resolved
bundle with a mismatching anti-forgery secret answers 401 "Invalid CSRF
token" — so the caller can tell which part of the credential was wrong,
contradicting the claim that all comparison failures carry one identical
signal. -/
theorem c7_counterexample :
    protectedResponse (Protected sampleDb 0 "unknownAccess" "oldCsrf")
      = (401, "Invalid access token") ∧
    protectedResponse (Protected sampleDb 0 "oldAccess" "wrongCsrf")
      = (401, "Invalid CSRF token") ∧
    protectedResponse (Protected sampleDb 0 "unknownAccess" "oldCsrf") ≠
      protectedResponse (Protected sampleDb 0 "oldAccess" "wrongCsrf") := by
  decide

/-- C7 (amended): in the in-memory `Authorize` the claim holds — an access
secret resolving no bundle and an anti-forgery mismatch on an unexpired match
both return the one generic `ErrAuth` signal. In the auth-server `Protected`
handler both failures share the 401 status but carry distinct bodies
("Invalid access token" vs "Invalid CSRF token"), so there the caller can
distinguish them. -/
theorem c7_failure_signals :
    (∀ (db : MemDB) (now : Int) (a c : String), a ≠ "" → c ≠ "" →
      (∀ p ∈ db, p.2.tokens.accessToken ≠ a) →
      Authorize db now a c = .errAuth) ∧
    (∀ (db : MemDB) (now : Int) (a c : String), a ≠ "" → c ≠ "" →
      (∀ p ∈ db, p.2.tokens.accessToken = a →
        ¬ now > p.2.tokens.expiresAt ∧ p.2.tokens.csrfToken ≠ c) →
      Authorize db now a c = .errAuth) ∧
    (∀ (db : Database) (now : Int) (a c : String), a ≠ "" → c ≠ "" →
      GetAuthTokensByAccessToken db a = none →
      protectedResponse (Protected db now a c) = (401, "Invalid access token")) ∧
    (∀ (db : Database) (now : Int) (a c : String) (t : AuthToken) (u : User),
      a ≠ "" → c ≠ "" →
      GetAuthTokensByAccessToken db a = some (t, u) → t.csrfToken ≠ c →
      protectedResponse (Protected db now a c) = (401, "Invalid CSRF token")) := by
  refine ⟨?_, ?_, ?_, ?_⟩
  · intro db now a c ha hc h
    simp only [Authorize, if_neg ha, if_neg hc]
    exact authorizeScan_noMatch now a c db h
  · intro db now a c ha hc h
    simp only [Authorize, if_neg ha, if_neg hc]
    exact authorizeScan_csrfMismatch now a c db h
  · intro db now a c ha hc h
    simp [Protected, if_neg ha, if_neg hc, h, protectedResponse]
  · intro db now a c t u ha hc hf hcsrf
    simp only [Protected, if_neg ha, if_neg hc, hf]
    rw [if_pos hcsrf]
    rfl

/-- Witness for C7 (amended): all four clauses at concrete stores. -/
theorem c7_failure_signals_witness :
    Authorize memSampleDb 0 "nosuch" "csrfA" = .errAuth ∧
    Authorize memSampleDb 0 "accA" "wrongCsrf" = .errAuth ∧
    protectedResponse (Protected sampleDb 0 "nosuch" "oldCsrf")
      = (401, "Invalid access token") ∧
    protectedResponse (Protected sampleDb 0 "oldAccess" "wrongCsrf")
      = (401, "Invalid CSRF token") :=
  ⟨c7_failure_signals.1 memSampleDb 0 "nosuch" "csrfA"
     (by decide) (by decide) (by decide),
   c7_failure_signals.2.1 memSampleDb 0 "accA" "wrongCsrf"
     (by decide) (by decide) (by decide),
   c7_failure_signals.2.2.1 sampleDb 0 "nosuch" "oldCsrf"
     (by decide) (by decide) (by decide),
   c7_failure_signals.2.2.2 sampleDb 0 "oldAccess" "wrongCsrf" oldRow sampleUser
     (by decide) (by decide) (by decide) (by decide)⟩

/-- C2: a successful rotation preserves the refresh secret byte-for-byte,
freshly generates the access and anti-forgery secrets (under the freshness of
the random draw, they differ from the replaced bundle's), and sets
`expiresAt = now + accessLifetime`, a later instant than the replaced
bundle's expiry whenever the clock has advanced past
`oldExpiry - accessLifetime`. First conjunct: the in-memory
`refreshAuthTokens` (lifetime hard-coded to 15 minutes); second conjunct: the
auth-server `RefreshToken` handler (configured lifetime). -/
theorem c2_rotation_preserves_refresh :
    (∀ (db : MemDB) (username nm : String) (userData : Login) (now : Int)
        (e1b e2b e3b : List Nat),
      db.find? (fun p => p.1 = username) = some (nm, userData) →
      base64URLEncode e1b ≠ userData.tokens.accessToken →
      base64URLEncode e3b ≠ userData.tokens.csrfToken →
      now + mainAccessLifetime > userData.tokens.expiresAt →
      ∃ nt : AuthTokens,
        refreshAuthTokens db userData.tokens.refreshToken username now
            (some e1b) (some e2b) (some e3b) = .ok nt ∧
        nt.refreshToken = userData.tokens.refreshToken ∧
        nt.accessToken ≠ userData.tokens.accessToken ∧
        nt.csrfToken ≠ userData.tokens.csrfToken ∧
        nt.expiresAt = now + mainAccessLifetime ∧
        nt.expiresAt > userData.tokens.expiresAt) ∧
    (∀ (db : Database) (username : String) (user tu : User) (token : AuthToken)
        (now : Int) (config : TokenConfig) (e1b e2b e3b : List Nat),
      GetUserByUsername db username = some user →
      GetAuthTokensByRefreshToken db token.refreshToken = some (token, tu) →
      token.userID = user.id →
      base64URLEncode e1b ≠ token.accessToken →
      base64URLEncode e3b ≠ token.csrfToken →
      now + config.accessTokenDuration > token.expiresAt →
      ∃ (nt : Tokens) (db2 : Database),
        RefreshTokenHandler db username token.refreshToken now config
            (some e1b) (some e2b) (some e3b) true true = (.ok nt, db2) ∧
        nt.refreshToken = token.refreshToken ∧
        nt.accessToken ≠ token.accessToken ∧
        nt.csrfToken ≠ token.csrfToken ∧
        nt.expiresAt = now + config.accessTokenDuration ∧
        nt.expiresAt > token.expiresAt) := by
  constructor
  · intro db username nm userData now e1b e2b e3b h hfA hfC hclock
    refine ⟨{ accessToken := base64URLEncode e1b,
              refreshToken := userData.tokens.refreshToken,
              csrfToken := base64URLEncode e3b,
              expiresAt := now + mainAccessLifetime },
      ?_, rfl, hfA, hfC, rfl, hclock⟩
    simp [refreshAuthTokens, h, subtleConstantTimeCompare_self,
      generateAuthTokens, generateToken]
  · intro db username user tu token now config e1b e2b e3b hu ht hid hfA hfC hclock
    exact ⟨{ accessToken := base64URLEncode e1b, refreshToken := token.refreshToken,
             csrfToken := base64URLEncode e3b,
             expiresAt := now + config.accessTokenDuration },
      { db with authTokens :=
          deleteTokensFor db.authTokens user.id ++
            [{ userID := user.id, accessToken := base64URLEncode e1b,
               refreshToken := token.refreshToken, csrfToken := base64URLEncode e3b,
               expiresAt := now + config.accessTokenDuration }] },
      refreshHandler_success db username user token tu now config e1b e2b e3b hu ht hid,
      rfl, hfA, hfC, rfl, hclock⟩

/-- Witness for C2: both rotation paths at a concrete store, with concrete
one-byte draws whose encodings differ from the stored secrets. -/
theorem c2_rotation_preserves_refresh_witness :
    (∃ nt : AuthTokens,
      refreshAuthTokens memSampleDb "refA" "alice" 50
          (some [1]) (some [2]) (some [3]) = .ok nt ∧
      nt.refreshToken = "refA" ∧
      nt.accessToken ≠ "accA" ∧
      nt.csrfToken ≠ "csrfA" ∧
      nt.expiresAt = 50 + mainAccessLifetime ∧
      nt.expiresAt > 100) ∧
    (∃ (nt : Tokens) (db2 : Database),
      RefreshTokenHandler sampleDb "alice1234" "oldRefresh" 50
          { accessTokenDuration := 900000000000, refreshTokenDuration := 604800000000000 }
          (some [1]) (some [2]) (some [3]) true true = (.ok nt, db2) ∧
      nt.refreshToken = "oldRefresh" ∧
      nt.accessToken ≠ "oldAccess" ∧
      nt.csrfToken ≠ "oldCsrf" ∧
      nt.expiresAt = 50 + (900000000000 : Int) ∧
      nt.expiresAt > 100) :=
  ⟨c2_rotation_preserves_refresh.1 memSampleDb "alice" "alice" aliceLogin 50 [1] [2] [3]
     (by decide) (by decide) (by decide) (by decide),
   c2_rotation_preserves_refresh.2 sampleDb "alice1234" sampleUser sampleUser oldRow 50
     { accessTokenDuration := 900000000000, refreshTokenDuration := 604800000000000 }
     [1] [2] [3] (by decide) (by decide) (by decide) (by decide) (by decide) (by decide)⟩

/-- C3: a successful `SaveAuthTokens` (the upsert performed by login issuance
and rotation) leaves exactly the new row for the target owner and leaves
every other owner's rows untouched, so the at-most-one-bundle-per-owner
invariant is preserved (and established for the target owner); provided the
replaced secrets differ from the new row's and, per the store's unique
constraints, occur in no other owner's row, the replaced bundle's access and
refresh secrets no longer resolve through the store lookups; and
`DeleteAuthTokens` (logout) leaves zero rows for the owner. -/
theorem c3_single_bundle_per_owner (db : Database) (uid : Nat) (row : AuthToken)
    (hrow : row.userID = uid) :
    tokensFor (SaveAuthTokens db uid row true true).1 uid = [row] ∧
    (∀ uid', uid' ≠ uid →
      tokensFor (SaveAuthTokens db uid row true true).1 uid' = tokensFor db uid') ∧
    ((∀ u, (tokensFor db u).length ≤ 1) →
      ∀ u, (tokensFor (SaveAuthTokens db uid row true true).1 u).length ≤ 1) ∧
    (∀ old ∈ tokensFor db uid, old.accessToken ≠ row.accessToken →
      (∀ t ∈ db.authTokens, t.accessToken = old.accessToken → t.userID = uid) →
      GetAuthTokensByAccessToken (SaveAuthTokens db uid row true true).1
        old.accessToken = none) ∧
    (∀ old ∈ tokensFor db uid, old.refreshToken ≠ row.refreshToken →
      (∀ t ∈ db.authTokens, t.refreshToken = old.refreshToken → t.userID = uid) →
      GetAuthTokensByRefreshToken (SaveAuthTokens db uid row true true).1
        old.refreshToken = none) ∧
    tokensFor (DeleteAuthTokens db uid) uid = [] := by
  have hstate : (SaveAuthTokens db uid row true true).1 =
      { db with authTokens := deleteTokensFor db.authTokens uid ++ [row] } := rfl
  have hone : tokensFor (SaveAuthTokens db uid row true true).1 uid = [row] := by
    rw [hstate]
    exact tokensFor_after_upsert db uid row hrow
  have hother : ∀ uid', uid' ≠ uid →
      tokensFor (SaveAuthTokens db uid row true true).1 uid' = tokensFor db uid' := by
    intro uid' h
    rw [hstate]
    have hrow' : ¬ row.userID = uid' := by omega
    simp [tokensFor, List.filter_append, deleteTokensFor_filter_other _ _ _ h,
      List.filter_cons, hrow']
  refine ⟨hone, hother, ?_, ?_, ?_, ?_⟩
  · intro hAll u
    by_cases h : u = uid
    · rw [h, hone]
      exact Nat.le.refl
    · rw [hother u h]
      exact hAll u
  · intro old hold hne huniq
    apply getByAccess_none
    intro t ht
    rw [hstate] at ht
    rcases List.mem_append.mp ht with hmem | hmem
    · intro hacc
      have hne' : t.userID ≠ uid := by
        simpa [deleteTokensFor] using (List.mem_filter.mp hmem).2
      exact hne' (huniq t (List.mem_filter.mp hmem).1 hacc)
    · have : t = row := by simpa using hmem
      rw [this]
      exact fun h => hne h.symm
  · intro old hold hne huniq
    apply getByRefresh_none
    intro t ht
    rw [hstate] at ht
    rcases List.mem_append.mp ht with hmem | hmem
    · intro hacc
      have hne' : t.userID ≠ uid := by
        simpa [deleteTokensFor] using (List.mem_filter.mp hmem).2
      exact hne' (huniq t (List.mem_filter.mp hmem).1 hacc)
    · have : t = row := by simpa using hmem
      rw [this]
      exact fun h => hne h.symm
  · simp [DeleteAuthTokens, tokensFor, deleteTokensFor_filter_eq]

/-- Witness for C3: upsert of `newRow` over `sampleDb` (holding `oldRow` for
the same owner) leaves exactly `newRow` for owner 1, the replaced access
secret no longer resolves, and logout leaves zero rows. -/
theorem c3_single_bundle_per_owner_witness :
    tokensFor (SaveAuthTokens sampleDb 1 newRow true true).1 1 = [newRow] ∧
    GetAuthTokensByAccessToken (SaveAuthTokens sampleDb 1 newRow true true).1
      "oldAccess" = none ∧
    tokensFor (DeleteAuthTokens sampleDb 1) 1 = [] := by
  have h := c3_single_bundle_per_owner sampleDb 1 newRow rfl
  exact ⟨h.1, h.2.2.2.1 oldRow (by decide) (by decide) (by decide), h.2.2.2.2.2⟩

/-- C5: whenever a bundle is persisted for the claimed owner and the
presented refresh secret equals its stored refresh secret (so the
`GetAuthTokensByRefreshToken` join — as implemented in the complete revision
of `postgres.go` — resolves that row and the claimed user resolves), the
`RefreshToken` handler succeeds: it returns a bundle carrying the same
refresh secret and the freshly generated access and anti-forgery secrets, and
persists exactly that bundle for the owner via the upsert. -/
theorem c5_rotate_succeeds (db : Database) (username : String) (user tu : User)
    (token : AuthToken) (now : Int) (config : TokenConfig) (e1b e2b e3b : List Nat)
    (hu : GetUserByUsername db username = some user)
    (ht : GetAuthTokensByRefreshToken db token.refreshToken = some (token, tu))
    (hid : token.userID = user.id) :
    ∃ (nt : Tokens) (db2 : Database),
      RefreshTokenHandler db username token.refreshToken now config
          (some e1b) (some e2b) (some e3b) true true = (.ok nt, db2) ∧
      nt.refreshToken = token.refreshToken ∧
      nt.accessToken = base64URLEncode e1b ∧
      nt.csrfToken = base64URLEncode e3b ∧
      nt.expiresAt = now + config.accessTokenDuration ∧
      tokensFor db2 user.id =
        [{ userID := user.id, accessToken := nt.accessToken,
           refreshToken := nt.refreshToken, csrfToken := nt.csrfToken,
           expiresAt := nt.expiresAt }] := by
  refine ⟨{ accessToken := base64URLEncode e1b, refreshToken := token.refreshToken,
            csrfToken := base64URLEncode e3b,
            expiresAt := now + config.accessTokenDuration },
    { db with authTokens :=
        deleteTokensFor db.authTokens user.id ++
          [{ userID := user.id, accessToken := base64URLEncode e1b,
             refreshToken := token.refreshToken, csrfToken := base64URLEncode e3b,
             expiresAt := now + config.accessTokenDuration }] },
    refreshHandler_success db username user token tu now config e1b e2b e3b hu ht hid,
    rfl, rfl, rfl, rfl, ?_⟩
  exact tokensFor_after_upsert db user.id _ rfl

/-- Witness for C5 at the concrete store `sampleDb`. -/
theorem c5_rotate_succeeds_witness :
    ∃ (nt : Tokens) (db2 : Database),
      RefreshTokenHandler sampleDb "alice1234" "oldRefresh" 0
          { accessTokenDuration := 900000000000, refreshTokenDuration := 604800000000000 }
          (some [1]) (some [2]) (some [3]) true true = (.ok nt, db2) ∧
      nt.refreshToken = "oldRefresh" ∧
      nt.accessToken = base64URLEncode [1] ∧
      nt.csrfToken = base64URLEncode [3] ∧
      nt.expiresAt = 0 + (900000000000 : Int) ∧
      tokensFor db2 1 =
        [{ userID := 1, accessToken := nt.accessToken,
           refreshToken := nt.refreshToken, csrfToken := nt.csrfToken,
           expiresAt := nt.expiresAt }] :=
  c5_rotate_succeeds sampleDb "alice1234" sampleUser sampleUser oldRow 0
    { accessTokenDuration := 900000000000, refreshTokenDuration := 604800000000000 }
    [1] [2] [3] (by decide) (by decide) (by decide)
